import Mathlib

/-!
Shallow embedding of the eero business dashboard's cache-refresh,
health-classification, uptime-incident and alerting core
(src/app/dashboard.py, src/app/alerts.py, src/app/computations.py,
src/app/database.py).

Modelling conventions: timestamps are integers, real arithmetic is exact
rational arithmetic (Python floats are modelled by ℚ; the literals 0.5 and
0.25 are exact in binary floating point, so the branch structure is
preserved), Python's banker's rounding `round` is modelled by `pyRound`,
database tables are lists of records, and the module-level dictionaries are
association lists.
-/

/-- Network health status: the strings 'healthy' / 'degraded' / 'offline'
used throughout src/app/dashboard.py and src/app/alerts.py. -/
inductive Status
  | healthy
  | degraded
  | offline
deriving DecidableEq, Repr

/-- Embeds calculate_health_status (src/app/dashboard.py lines 434-445):
offline if either count is 0, else healthy when the online ratio exceeds
0.5, else degraded. -/
def calculate_health_status (total_devices online_devices : ℕ) : Status :=
  if total_devices = 0 ∨ online_devices = 0 then Status.offline
  else if (1 : ℚ) / 2 < (online_devices : ℚ) / (total_devices : ℚ) then Status.healthy
  else Status.degraded

/-- Embeds calculate_bandwidth_utilization (src/app/dashboard.py lines
448-456): 0 when capacity ≤ 0, else usage/capacity*100 clamped to
[0, 100]. -/
def calculate_bandwidth_utilization (usage_mbps capacity_mbps : ℚ) : ℚ :=
  if capacity_mbps ≤ 0 then 0
  else max 0 (min 100 (usage_mbps / capacity_mbps * 100))

/-- Python's built-in round on an exact rational: round-half-to-even. -/
def pyRound (q : ℚ) : ℤ :=
  let f : ℤ := ⌊q⌋
  let r : ℚ := q - (f : ℚ)
  if r < 1 / 2 then f
  else if 1 / 2 < r then f + 1
  else if f % 2 = 0 then f else f + 1

/-- Embeds compute_health_score (src/app/computations.py lines 9-42):
equal-weighted average of node ratio, mapped signal, uptime and bandwidth
headroom, rounded then clamped to [0, 100].  The guard `if total_nodes > 0`
mirrors the Python conditional expression that avoids dividing by zero. -/
def compute_health_score (green_nodes total_nodes : ℕ)
    (avg_signal_dbm uptime_24h bandwidth_utilization : ℚ) : ℤ :=
  let node_score : ℚ :=
    if 0 < total_nodes then (green_nodes : ℚ) / (total_nodes : ℚ) * 100 else 0
  let signal_score : ℚ := max 0 (min 100 ((avg_signal_dbm + 90) / 60 * 100))
  let uptime_score : ℚ := uptime_24h
  let bandwidth_score : ℚ := 100 - bandwidth_utilization
  let health_score : ℤ := pyRound
    (node_score * (1 / 4) + signal_score * (1 / 4)
      + uptime_score * (1 / 4) + bandwidth_score * (1 / 4))
  max 0 (min 100 health_score)

/-- Alert record as built by src/app/alerts.py (the dict passed to
insert_alert and notify_alert). -/
structure HealthAlert where
  network_id : String
  alert_type : String
  severity : String
  message : String
deriving DecidableEq, Repr

/-- The module-level dict _previous_health (src/app/alerts.py line 16),
mapping network id to last-observed status, as an association list. -/
abbrev PrevHealth : Type := List (String × Status)

/-- Dictionary lookup dict.get(key) on the association list. -/
def getPrev : PrevHealth → String → Option Status
  | [], _ => none
  | (k, v) :: rest, id => if id = k then some v else getPrev rest id

/-- Dictionary assignment dict[key] = value on the association list. -/
def setPrev : PrevHealth → String → Status → PrevHealth
  | [], id, s => [(id, s)]
  | (k, v) :: rest, id, s =>
      if id = k then (id, s) :: rest else (k, v) :: setPrev rest id s

/-- Embeds the alert-decision control flow of check_health_transition
(src/app/alerts.py lines 19-70): the map is updated unconditionally before
the transition is evaluated; first observation and equal statuses give no
alert; transition to offline gives a critical alert; transition to degraded
gives a warning alert only when the prior status was healthy; recovery to
healthy and every remaining transition give no alert.  The persistence /
notification block (whose outcome does not influence the returned value)
is modelled separately by check_health_transition_eff. -/
def check_health_transition (m : PrevHealth) (network_id network_name : String)
    (new_status : Status) : Option HealthAlert × PrevHealth :=
  let old_status := getPrev m network_id
  let m' := setPrev m network_id new_status
  if old_status = none ∨ old_status = some new_status then (none, m')
  else
    let alert : Option HealthAlert :=
      if new_status = Status.offline then
        some ⟨network_id, "offline", "critical",
          network_name ++ " has gone offline — all devices are unreachable."⟩
      else if new_status = Status.degraded ∧ old_status = some Status.healthy then
        some ⟨network_id, "degraded", "warning",
          network_name ++ " is degraded — 50% or fewer devices are online."⟩
      else none
    (alert, m')

/-- Embeds check_bandwidth_alert's decision (src/app/alerts.py lines
73-98): a critical alert exactly when utilization exceeds 95.  The decimal
formatting of the f-string is abstracted to exact rational rendering. -/
def check_bandwidth_alert (network_id network_name : String)
    (utilization : ℚ) : Option HealthAlert :=
  if 95 < utilization then
    some ⟨network_id, "bandwidth", "critical",
      network_name ++ " bandwidth at " ++ toString utilization
        ++ "% — exceeds 95% threshold."⟩
  else none

/-- Feeding a sequence of statuses for one network through
check_health_transition, threading the module-level map. -/
def runHealthSeq (network_id network_name : String) :
    PrevHealth → List Status → List (Option HealthAlert)
  | _, [] => []
  | m, s :: rest =>
      let r := check_health_transition m network_id network_name s
      r.1 :: runHealthSeq network_id network_name r.2 rest

/-- The body of the try block at src/app/alerts.py lines 57-65 (and 86-94):
insert_alert followed by notify_alert, either of which may raise; a raise in
the first skips the second, exactly as the Except bind does. -/
def insert_and_notify (ins noti : HealthAlert → Except String Unit)
    (a : HealthAlert) : Except String Unit := do
  ins a
  noti a

/-- The try/except around the persistence block (src/app/alerts.py lines
57-67 and 86-96): run insert_and_notify; a failure is caught and turned into
the logged error message, never re-raised. -/
def persistOutcome (ins noti : HealthAlert → Except String Unit)
    (logPrefix : String) (a : HealthAlert) : Option String :=
  match insert_and_notify ins noti a with
  | Except.ok _ => none
  | Except.error e => some (String.append logPrefix e)

/-- Full embedding of check_health_transition including the persistence
try/except (src/app/alerts.py lines 56-68): collaborators ins (insert_alert)
and noti (notify_alert) may fail; the except block converts their failure
into a logged message (third component) and the function still returns the
alert.  An Except.error result would model an uncaught exception escaping
to the caller. -/
def check_health_transition_eff (ins noti : HealthAlert → Except String Unit)
    (m : PrevHealth) (network_id network_name : String) (new_status : Status) :
    Except String (Option HealthAlert × PrevHealth × Option String) :=
  let old_status := getPrev m network_id
  let m' := setPrev m network_id new_status
  if old_status = none ∨ old_status = some new_status then Except.ok (none, m', none)
  else
    let alert : Option HealthAlert :=
      if new_status = Status.offline then
        some ⟨network_id, "offline", "critical",
          network_name ++ " has gone offline — all devices are unreachable."⟩
      else if new_status = Status.degraded ∧ old_status = some Status.healthy then
        some ⟨network_id, "degraded", "warning",
          network_name ++ " is degraded — 50% or fewer devices are online."⟩
      else none
    match alert with
    | some a =>
        Except.ok (some a, m', persistOutcome ins noti "Failed to persist alert: " a)
    | none => Except.ok (none, m', none)

/-- Full embedding of check_bandwidth_alert including the persistence
try/except (src/app/alerts.py lines 86-97). -/
def check_bandwidth_alert_eff (ins noti : HealthAlert → Except String Unit)
    (network_id network_name : String) (utilization : ℚ) :
    Except String (Option HealthAlert × Option String) :=
  if 95 < utilization then
    let a : HealthAlert :=
      ⟨network_id, "bandwidth", "critical",
        network_name ++ " bandwidth at " ++ toString utilization
          ++ "% — exceeds 95% threshold."⟩
    Except.ok (some a, persistOutcome ins noti "Failed to persist bandwidth alert: " a)
  else Except.ok (none, none)

/-- Durable uptime_incidents row (the UptimeIncident table of
src/app/database.py): network id, start time, nullable end time, nullable
duration.  The affected_devices column, never consulted by the core, is
elided. -/
structure Incident where
  network_id : String
  start_time : ℤ
  end_time : Option ℤ
  duration_seconds : Option ℤ
deriving DecidableEq, Repr

/-- Embeds insert_uptime_incident (src/app/database.py lines 217-235) as
called by update_cache: a new row with the defaulted end_time = None and
duration_seconds = None is appended to the table. -/
def insert_uptime_incident (tbl : List Incident) (network_id : String)
    (start_time : ℤ) : List Incident :=
  tbl ++ [⟨network_id, start_time, none, none⟩]

/-- The per-row action of the recovery loop (src/app/dashboard.py lines
742-752): a row of this network with end_time IS NULL gets end_time = now
and duration_seconds = max 0 (now - start_time); any other row is
untouched. -/
def closeRow (network_id : String) (now : ℤ) (inc : Incident) : Incident :=
  if inc.network_id = network_id ∧ inc.end_time = none then
    { inc with
        end_time := some now
        duration_seconds := some (max 0 (now - inc.start_time)) }
  else inc

/-- Embeds the recovery branch of update_cache (src/app/dashboard.py lines
735-755): every open incident of this network is closed, the rest of the
table kept as is. -/
def closeOpenIncidentsFor (tbl : List Incident) (network_id : String)
    (now : ℤ) : List Incident :=
  tbl.map (closeRow network_id now)

/-- Whether one row counts as an open incident of the network (the
end_time IS NULL filter of the queries in src/app/dashboard.py). -/
def openInc (inc : Incident) (network_id : String) : ℕ :=
  if inc.network_id = network_id ∧ inc.end_time = none then 1 else 0

/-- Number of open incidents (end_time IS NULL) recorded for a network:
the count behind the core invariant. -/
def openCountFor : List Incident → String → ℕ
  | [], _ => 0
  | inc :: rest, network_id => openInc inc network_id + openCountFor rest network_id

/-- Embeds the incident part of the uptime-tracking block of update_cache
(src/app/dashboard.py lines 729-769): given the network's stored
_prev_health marker and this cycle's health, close all open incidents on the
transition out of offline, insert one open incident on a transition to
offline from a non-offline non-null marker, else leave the table alone.
The database writes are modelled as succeeding (the source catches and logs
their failure). -/
def uptimeStep (tbl : List Incident) (network_id : String) (now : ℤ)
    (prev : Option Status) (h : Status) : List Incident :=
  if prev = some Status.offline ∧ h ≠ Status.offline then
    closeOpenIncidentsFor tbl network_id now
  else if h = Status.offline ∧ prev ≠ some Status.offline ∧ prev ≠ none then
    insert_uptime_incident tbl network_id now
  else tbl

/-- A sequence of per-network refresh evaluations: each element carries the
network processed, the cycle timestamp and the health computed that cycle.
The _prev_health marker is read before the incident logic and written
unconditionally after it (src/app/dashboard.py line 790). -/
def uptimeRun :
    List (String × ℤ × Status) → PrevHealth → List Incident →
      PrevHealth × List Incident
  | [], prevs, tbl => (prevs, tbl)
  | (nid, now, h) :: rest, prevs, tbl =>
      uptimeRun rest (setPrev prevs nid h)
        (uptimeStep tbl nid now (getPrev prevs nid) h)

/-- The inductive invariant coupling the incident table with the stored
_prev_health marker: at most one open incident, and none at all unless the
marker says offline. -/
def UptimeInv (prevs : PrevHealth) (tbl : List Incident) (nid : String) : Prop :=
  openCountFor tbl nid ≤ 1
    ∧ (getPrev prevs nid ≠ some Status.offline → openCountFor tbl nid = 0)

/-- The trimming step applied after appending to a time-series list
(src/app/dashboard.py lines 650-651, 660-661, 828-829, 837-838): when the
list exceeds 168 entries, keep only the last 168 (the Python slice
lst[-168:]). -/
def trim168 {α : Type} (l : List α) : List α :=
  if 168 < l.length then l.drop (l.length - 168) else l

/-- Appending one sample then trimming, the pattern applied to the
connectivity and signal time-series each cycle (src/app/dashboard.py lines
644-651 and 653-661). -/
def appendTrim {α : Type} (l : List α) (x : α) : List α :=
  trim168 (l ++ [x])

/-- One entry of a network's connected_users time-series
(src/app/dashboard.py lines 645-649). -/
structure CUSample where
  timestamp : ℤ
  count : ℕ
  wireless_count : ℕ
deriving DecidableEq, Repr

/-- One entry of a network's signal_strength_avg time-series
(src/app/dashboard.py lines 656-659). -/
structure SigSample where
  timestamp : ℤ
  avg_dbm : ℚ
deriving DecidableEq, Repr

/-- Python's round(x, 1): scale, round half to even, unscale. -/
def round1 (q : ℚ) : ℚ :=
  (pyRound (q * 10) : ℚ) / 10

/-- The slice of one network's in-memory cache entry that the refresh and
incident logic reads and writes: the two bounded time-series and the
_prev_health marker (src/app/dashboard.py lines 568-575, 696-705, 790).
Aggregate snapshot fields that no claim concerns (device list, histograms,
counts, bandwidth figures, offline_since) are elided. -/
structure NetCache where
  connected_users : List CUSample
  signal_strength_avg : List SigSample
  prev_health : Option Status
deriving DecidableEq, Repr

/-- What one per-network iteration of update_cache obtains from the
external API: the active device partition sizes, the valid signal readings
collected from wireless devices, the eero-node fetch result (None when the
fetch failed or returned no data), and the reported link capacity. -/
structure CycleInput where
  connectedCount : ℕ
  wirelessCount : ℕ
  signalValues : List ℚ
  nodeData : Option (ℕ × ℕ)
  capacityMbps : ℚ
deriving DecidableEq, Repr

/-- Health determination of update_cache (src/app/dashboard.py lines
664-694): from the node inventory (total, green) when available — healthy
when all green, degraded when some green, offline when none — else the
client-count fallback heuristic. -/
def healthFromNodes : Option (ℕ × ℕ) → ℕ → Status
  | some (total, green), _ =>
      if green = total then Status.healthy
      else if 0 < green then Status.degraded
      else Status.offline
  | none, connectedCount =>
      if 0 < connectedCount then Status.healthy else Status.offline

/-- One per-network refresh iteration over the modelled cache slice
(src/app/dashboard.py lines 644-790): append-and-trim both time-series,
determine health, run the incident state machine, store the new
_prev_health marker; returns the updated cache entry, the updated incident
table and this cycle's health. -/
def netCycle (c : NetCache) (tbl : List Incident) (nid : String) (now : ℤ)
    (inp : CycleInput) : NetCache × List Incident × Status :=
  let cu := appendTrim c.connected_users ⟨now, inp.connectedCount, inp.wirelessCount⟩
  let ss0 := if inp.signalValues = [] then c.signal_strength_avg
    else c.signal_strength_avg
      ++ [⟨now, round1 (inp.signalValues.sum / (inp.signalValues.length : ℚ))⟩]
  let ss := trim168 ss0
  let h := healthFromNodes inp.nodeData inp.connectedCount
  let tbl' := uptimeStep tbl nid now c.prev_health h
  (⟨cu, ss, some h⟩, tbl', h)

/-- Lookup of one network's entry in data_cache['networks']. -/
def getNet : List (String × NetCache) → String → Option NetCache
  | [], _ => none
  | (k, v) :: rest, id => if id = k then some v else getNet rest id

/-- Assignment of one network's entry in data_cache['networks']. -/
def setNet : List (String × NetCache) → String → NetCache →
    List (String × NetCache)
  | [], id, c => [(id, c)]
  | (k, v) :: rest, id, c =>
      if id = k then (id, c) :: rest else (k, v) :: setNet rest id c

/-- The mutable state touched by a refresh cycle: the per-network cache
entries, the durable incident table, and the Alert Engine's module-level
transition map. -/
structure DashState where
  networks : List (String × NetCache)
  incidents : List Incident
  alertPrev : PrevHealth
deriving DecidableEq, Repr

/-- Externally observable side effects of one update_cache invocation:
which networks were fetched from the external API, how many metric rows
and disk snapshots were written, and which alerts were emitted. -/
structure CycleTrace where
  fetched : List String
  metricWrites : ℕ
  diskWrites : ℕ
  alertsEmitted : List HealthAlert
deriving DecidableEq, Repr

/-- The empty effect trace. -/
def emptyTrace : CycleTrace :=
  ⟨[], 0, 0, []⟩

/-- Embeds update_cache (src/app/dashboard.py lines 532-870) over the
modelled state: the non-blocking lock acquisition returns immediately when
the lock is held; an empty active-network list returns before any fetch;
otherwise each active network is fetched (a network with no devices is
skipped, line 562), run through netCycle, a metric row is written, the
alert checks run, and finally one disk snapshot is written. -/
def update_cache (fetchInput : String → Option CycleInput)
    (names : String → String) (now : ℤ) (active_networks : List String)
    (lockHeld : Bool) (st : DashState) : DashState × CycleTrace :=
  if lockHeld then (st, emptyTrace)
  else if active_networks = [] then (st, emptyTrace)
  else
    let step := fun (acc : DashState × CycleTrace) (nid : String) =>
      let st0 := acc.1
      let tr0 := acc.2
      let tr1 := { tr0 with fetched := tr0.fetched ++ [nid] }
      match fetchInput nid with
      | none => (st0, tr1)
      | some inp =>
          let c := (getNet st0.networks nid).getD ⟨[], [], none⟩
          let r := netCycle c st0.incidents nid now inp
          let usage : ℚ := (inp.connectedCount : ℚ) * (5 / 2)
          let bw : ℚ := if 0 < inp.capacityMbps then
              calculate_bandwidth_utilization usage inp.capacityMbps else 0
          let ha := check_health_transition st0.alertPrev nid (names nid) r.2.2
          let ba := check_bandwidth_alert nid (names nid) bw
          ({ networks := setNet st0.networks nid r.1
             incidents := r.2.1
             alertPrev := ha.2 },
            { tr1 with
                metricWrites := tr1.metricWrites + 1
                alertsEmitted := tr1.alertsEmitted ++ (ha.1.toList ++ ba.toList) })
    let r := active_networks.foldl step (st, emptyTrace)
    (r.1, { r.2 with diskWrites := r.2.diskWrites + 1 })

/-- Lookup of a network's cached health_status string, as read by
_close_orphaned_incidents via
data_cache.get('networks', {}).get(str(network_id), {}).get('health_status', '').
A missing network entry or a missing health_status key both produce the
empty string, modelled as an optional lookup defaulted with getD "". -/
def getHealthStr : List (String × String) → String → Option String
  | [], _ => none
  | (k, v) :: rest, id => if id = k then some v else getHealthStr rest id

/-- Per-row action of _close_orphaned_incidents (src/app/dashboard.py lines
2767-2804): a row with end_time IS NULL is closed with end_time = now and
duration_seconds = max 0 (now - start_time) only when the network's cached
health is truthy (non-empty) and different from 'offline'
(`if health and health != 'offline'`); otherwise the row is untouched. -/
def close_orphan_row (healths : List (String × String)) (now : ℤ)
    (inc : Incident) : Incident :=
  if inc.end_time = none then
    if (getHealthStr healths inc.network_id).getD "" ≠ ""
        ∧ (getHealthStr healths inc.network_id).getD "" ≠ "offline" then
      { inc with
          end_time := some now
          duration_seconds := some (max 0 (now - inc.start_time)) }
    else inc
  else inc

/-- Embeds _close_orphaned_incidents: every durable incident row passes
through the per-row reconciliation; no row is ever inserted. -/
def close_orphaned_incidents (healths : List (String × String)) (now : ℤ)
    (tbl : List Incident) : List Incident :=
  tbl.map (close_orphan_row healths now)

/-- C6: with online ≤ total, classification is offline iff a count is 0;
otherwise degraded iff the online ratio is at most 1/2 and healthy iff it
is strictly greater than 1/2 (exactly 50% is degraded). -/
theorem c6_health_classification (total online : ℕ) (h : online ≤ total) :
    (calculate_health_status total online = Status.offline ↔ total = 0 ∨ online = 0)
    ∧ (¬(total = 0 ∨ online = 0) →
        (calculate_health_status total online = Status.degraded ↔
          (online : ℚ) / (total : ℚ) ≤ 1 / 2)
        ∧ (calculate_health_status total online = Status.healthy ↔
          1 / 2 < (online : ℚ) / (total : ℚ))) := by
  unfold calculate_health_status
  by_cases h0 : total = 0 ∨ online = 0
  · rw [if_pos h0]
    exact ⟨⟨fun _ => h0, fun _ => rfl⟩, fun hn => absurd h0 hn⟩
  · rw [if_neg h0]
    by_cases hr : (1 : ℚ) / 2 < (online : ℚ) / (total : ℚ)
    · rw [if_pos hr]
      refine ⟨⟨fun hx => Status.noConfusion hx, fun hx => absurd hx h0⟩, fun _ => ?_⟩
      exact ⟨⟨fun hx => Status.noConfusion hx, fun hx => absurd hr (not_lt.mpr hx)⟩,
        ⟨fun _ => hr, fun _ => rfl⟩⟩
    · rw [if_neg hr]
      refine ⟨⟨fun hx => Status.noConfusion hx, fun hx => absurd hx h0⟩, fun _ => ?_⟩
      exact ⟨⟨fun _ => not_lt.mp hr, fun _ => rfl⟩,
        ⟨fun hx => Status.noConfusion hx, fun hx => absurd hx hr⟩⟩

/-- Witness for c6_health_classification at total = 10, online = 5. -/
theorem c6_health_classification_witness :
    (calculate_health_status 10 5 = Status.offline ↔ (10 : ℕ) = 0 ∨ (5 : ℕ) = 0)
    ∧ (¬((10 : ℕ) = 0 ∨ (5 : ℕ) = 0) →
        (calculate_health_status 10 5 = Status.degraded ↔
          ((5 : ℕ) : ℚ) / ((10 : ℕ) : ℚ) ≤ 1 / 2)
        ∧ (calculate_health_status 10 5 = Status.healthy ↔
          1 / 2 < ((5 : ℕ) : ℚ) / ((10 : ℕ) : ℚ))) :=
  c6_health_classification 10 5 (by norm_num)

/-- C8: bandwidth utilization is always in [0, 100]; it is 0 whenever
capacity ≤ 0 and the clamped ratio otherwise; the spec's two sample points
hold. -/
theorem c8_bandwidth_utilization :
    (∀ u c : ℚ,
      0 ≤ calculate_bandwidth_utilization u c
      ∧ calculate_bandwidth_utilization u c ≤ 100
      ∧ (c ≤ 0 → calculate_bandwidth_utilization u c = 0)
      ∧ (0 < c →
          calculate_bandwidth_utilization u c = max 0 (min 100 (u / c * 100))))
    ∧ calculate_bandwidth_utilization 1000 100 = 100
    ∧ (∀ x : ℚ, calculate_bandwidth_utilization x 0 = 0) := by
  refine ⟨fun u c => ?_, by norm_num [calculate_bandwidth_utilization], fun x => by
    simp [calculate_bandwidth_utilization]⟩
  unfold calculate_bandwidth_utilization
  by_cases hc : c ≤ 0
  · rw [if_pos hc]
    exact ⟨le_refl 0, by norm_num, fun _ => rfl, fun h => absurd hc (not_le.mpr h)⟩
  · rw [if_neg hc]
    exact ⟨le_max_left _ _, max_le (by norm_num) (min_le_left _ _),
      fun h => absurd h hc, fun _ => rfl⟩

/-- Witness for c8_bandwidth_utilization (closed instance at u = 1000,
c = 100, discharging the inner positivity hypothesis there). -/
theorem c8_bandwidth_utilization_witness :
    calculate_bandwidth_utilization 1000 100 = max 0 (min 100 (1000 / 100 * 100)) :=
  ((c8_bandwidth_utilization.1 1000 100).2.2.2) (by norm_num)

/-- C10: compute_health_score is total at total_nodes = 0: the node
component is 0 (the result does not depend on green_nodes) and the result
is still clamped into [0, 100]. -/
theorem c10_health_score_zero_nodes (green : ℕ) (s u b : ℚ) :
    compute_health_score green 0 s u b = compute_health_score 0 0 s u b
    ∧ 0 ≤ compute_health_score green 0 s u b
    ∧ compute_health_score green 0 s u b ≤ 100 := by
  refine ⟨rfl, le_max_left _ _, max_le (by norm_num) (min_le_left _ _)⟩

/-- Writing a key always makes it readable back (dict semantics of the
association list). -/
theorem getPrev_setPrev (m : PrevHealth) (k : String) (v : Status) :
    getPrev (setPrev m k v) k = some v := by
  induction m with
  | nil => simp [setPrev, getPrev]
  | cons hd tl ih =>
      obtain ⟨k', v'⟩ := hd
      by_cases h : k = k'
      · simp [setPrev, getPrev, h]
      · simp [setPrev, getPrev, h, ih]

/-- The map returned by check_health_transition is always the input map
with the network's entry overwritten by the new status. -/
theorem check_health_transition_snd (m : PrevHealth) (id name : String)
    (s : Status) :
    (check_health_transition m id name s).2 = setPrev m id s := by
  simp only [check_health_transition]
  split
  · rfl
  · rfl

/-- C2: the status sequence [healthy, degraded, offline, healthy] starting
from no prior record emits exactly [no alert, degraded warning, offline
critical, no alert]; and a transition to degraded whose prior status was
offline or degraded emits no alert. -/
theorem c2_alert_sequence (id name : String) :
    runHealthSeq id name []
        [Status.healthy, Status.degraded, Status.offline, Status.healthy]
      = [none,
        some ⟨id, "degraded", "warning",
          name ++ " is degraded — 50% or fewer devices are online."⟩,
        some ⟨id, "offline", "critical",
          name ++ " has gone offline — all devices are unreachable."⟩,
        none]
    ∧ (check_health_transition [(id, Status.offline)] id name Status.degraded).1 = none
    ∧ (check_health_transition [(id, Status.degraded)] id name Status.degraded).1 = none := by
  refine ⟨?_, ?_, ?_⟩ <;>
    simp [runHealthSeq, check_health_transition, getPrev, setPrev]

/-- The effectful check always returns normally and agrees with the pure
decision, whatever the collaborators do. -/
theorem check_health_transition_eff_ok
    (ins noti : HealthAlert → Except String Unit) (m : PrevHealth)
    (id name : String) (s : Status) :
    ∃ lg, check_health_transition_eff ins noti m id name s
        = Except.ok ((check_health_transition m id name s).1,
            (check_health_transition m id name s).2, lg) := by
  simp only [check_health_transition_eff, check_health_transition]
  by_cases h : getPrev m id = none ∨ getPrev m id = some s
  · rw [if_pos h, if_pos h]
    exact ⟨none, rfl⟩
  · rw [if_neg h, if_neg h]
    by_cases h1 : s = Status.offline
    · rw [if_pos h1]
      exact ⟨_, rfl⟩
    · rw [if_neg h1]
      by_cases h2 : s = Status.degraded ∧ getPrev m id = some Status.healthy
      · rw [if_pos h2]
        exact ⟨_, rfl⟩
      · rw [if_neg h2]
        exact ⟨none, rfl⟩

/-- The effectful bandwidth check always returns normally and agrees with
the pure decision, whatever the collaborators do. -/
theorem check_bandwidth_alert_eff_ok
    (ins noti : HealthAlert → Except String Unit) (id name : String)
    (util : ℚ) :
    ∃ lg, check_bandwidth_alert_eff ins noti id name util
        = Except.ok (check_bandwidth_alert id name util, lg) := by
  simp only [check_bandwidth_alert_eff, check_bandwidth_alert]
  by_cases h : (95 : ℚ) < util
  · rw [if_pos h, if_pos h]
    exact ⟨_, rfl⟩
  · rw [if_neg h, if_neg h]
    exact ⟨none, rfl⟩

/-- C9: after any call, the transition map holds the new status for the
network (updated unconditionally, before the transition is evaluated, on
first observations and no-alert transitions alike); an immediate repeat
call with the same status returns no alert; and the same map update is
returned even when the persistence or notification collaborator fails. -/
theorem c9_map_updated_unconditionally (m : PrevHealth) (id name : String)
    (s : Status) :
    getPrev (check_health_transition m id name s).2 id = some s
    ∧ (check_health_transition
        (check_health_transition m id name s).2 id name s).1 = none
    ∧ (∀ ins noti : HealthAlert → Except String Unit,
        ∃ r, check_health_transition_eff ins noti m id name s = Except.ok r
          ∧ getPrev r.2.1 id = some s) := by
  have h2 := check_health_transition_snd m id name s
  refine ⟨?_, ?_, ?_⟩
  · rw [h2]
    exact getPrev_setPrev m id s
  · rw [h2]
    have hold : getPrev (setPrev m id s) id = some s := getPrev_setPrev m id s
    simp only [check_health_transition]
    rw [if_pos (Or.inr hold)]
  · intro ins noti
    obtain ⟨lg, hlg⟩ := check_health_transition_eff_ok ins noti m id name s
    refine ⟨_, hlg, ?_⟩
    rw [h2]
    exact getPrev_setPrev m id s

/-- C7: whatever the insert_alert and notify_alert collaborators do, both
alert checks return normally (Except.ok, never an escaping exception) and
still return exactly the alert payload and map update of the pure decision;
the collaborators' failure surfaces only as a logged message. -/
theorem c7_persistence_failure_swallowed
    (ins noti : HealthAlert → Except String Unit) (m : PrevHealth)
    (id name : String) (s : Status) (util : ℚ) :
    (∃ lg, check_health_transition_eff ins noti m id name s
        = Except.ok ((check_health_transition m id name s).1,
            (check_health_transition m id name s).2, lg))
    ∧ (∃ lg, check_bandwidth_alert_eff ins noti id name util
        = Except.ok (check_bandwidth_alert id name util, lg)) :=
  ⟨check_health_transition_eff_ok ins noti m id name s,
    check_bandwidth_alert_eff_ok ins noti id name util⟩

/-- A closed row never counts as open for its own network. -/
theorem openInc_closeRow_self (inc : Incident) (nid : String) (now : ℤ) :
    openInc (closeRow nid now inc) nid = 0 := by
  unfold closeRow openInc
  by_cases hc : inc.network_id = nid ∧ inc.end_time = none
  · rw [if_pos hc, if_neg]
    intro hx
    exact Option.noConfusion hx.2
  · rw [if_neg hc, if_neg hc]

/-- Closing rows of one network does not change whether a row counts as
open for another network. -/
theorem openInc_closeRow_other (inc : Incident) (nid nid' : String)
    (now : ℤ) (hne : nid' ≠ nid) :
    openInc (closeRow nid' now inc) nid = openInc inc nid := by
  unfold closeRow openInc
  by_cases hc : inc.network_id = nid' ∧ inc.end_time = none
  · rw [if_pos hc, if_neg, if_neg]
    · intro hx
      exact hne (hc.1 ▸ hx.1)
    · intro hx
      exact Option.noConfusion hx.2
  · rw [if_neg hc]

/-- Open counts add over table concatenation. -/
theorem openCountFor_append (t1 t2 : List Incident) (nid : String) :
    openCountFor (t1 ++ t2) nid = openCountFor t1 nid + openCountFor t2 nid := by
  induction t1 with
  | nil => simp [openCountFor]
  | cons inc tl ih =>
      rw [List.cons_append]
      simp only [openCountFor]
      rw [ih, Nat.add_assoc]

/-- Closing a network's open incidents leaves it with zero open
incidents. -/
theorem openCountFor_close_self (tbl : List Incident) (nid : String)
    (now : ℤ) : openCountFor (closeOpenIncidentsFor tbl nid now) nid = 0 := by
  induction tbl with
  | nil => rfl
  | cons inc tl ih =>
      simp only [closeOpenIncidentsFor, List.map_cons, openCountFor] at ih ⊢
      rw [openInc_closeRow_self, ih]

/-- Closing one network's incidents does not change another network's open
count. -/
theorem openCountFor_close_other (tbl : List Incident) (nid nid' : String)
    (now : ℤ) (hne : nid' ≠ nid) :
    openCountFor (closeOpenIncidentsFor tbl nid' now) nid
      = openCountFor tbl nid := by
  induction tbl with
  | nil => rfl
  | cons inc tl ih =>
      simp only [closeOpenIncidentsFor, List.map_cons, openCountFor] at ih ⊢
      rw [openInc_closeRow_other inc nid nid' now hne, ih]

/-- Inserting an open incident for a network raises its open count by
one. -/
theorem openCountFor_insert_self (tbl : List Incident) (nid : String)
    (now : ℤ) :
    openCountFor (insert_uptime_incident tbl nid now) nid
      = openCountFor tbl nid + 1 := by
  rw [insert_uptime_incident, openCountFor_append]
  simp [openCountFor, openInc]

/-- Inserting an open incident for one network does not change another
network's open count. -/
theorem openCountFor_insert_other (tbl : List Incident) (nid nid' : String)
    (now : ℤ) (hne : nid' ≠ nid) :
    openCountFor (insert_uptime_incident tbl nid' now) nid
      = openCountFor tbl nid := by
  rw [insert_uptime_incident, openCountFor_append]
  simp [openCountFor, openInc, hne]

/-- Overwriting one key of the transition map leaves the other keys'
lookups unchanged. -/
theorem getPrev_setPrev_other (m : PrevHealth) (k k' : String) (v : Status)
    (hne : k' ≠ k) : getPrev (setPrev m k' v) k = getPrev m k := by
  induction m with
  | nil => simp [setPrev, getPrev, Ne.symm hne]
  | cons hd tl ih =>
      obtain ⟨k0, v0⟩ := hd
      by_cases h : k' = k0
      · subst h
        simp [setPrev, getPrev, Ne.symm hne]
      · by_cases h2 : k = k0
        · simp [setPrev, getPrev, h, h2]
        · simp [setPrev, getPrev, h, h2, ih]

/-- One per-network refresh evaluation (for any network) preserves the
invariant. -/
theorem uptimeInv_step (prevs : PrevHealth) (tbl : List Incident)
    (nid nid' : String) (now : ℤ) (h : Status) :
    UptimeInv prevs tbl nid →
    UptimeInv (setPrev prevs nid' h)
      (uptimeStep tbl nid' now (getPrev prevs nid') h) nid := by
  intro hI
  obtain ⟨h1, h2⟩ := hI
  by_cases hn : nid' = nid
  · subst hn
    unfold uptimeStep
    by_cases b1 : getPrev prevs nid' = some Status.offline ∧ h ≠ Status.offline
    · rw [if_pos b1]
      refine ⟨?_, fun _ => openCountFor_close_self tbl nid' now⟩
      rw [openCountFor_close_self]
      omega
    · rw [if_neg b1]
      by_cases b2 : h = Status.offline ∧ getPrev prevs nid' ≠ some Status.offline
          ∧ getPrev prevs nid' ≠ none
      · rw [if_pos b2]
        constructor
        · rw [openCountFor_insert_self]
          have hz := h2 b2.2.1
          omega
        · intro hcontra
          have hoff : getPrev (setPrev prevs nid' h) nid' = some Status.offline := by
            rw [getPrev_setPrev, b2.1]
          exact absurd hoff hcontra
      · rw [if_neg b2]
        refine ⟨h1, fun hne2 => ?_⟩
        have hh : h ≠ Status.offline := by
          intro he
          apply hne2
          rw [getPrev_setPrev, he]
        have hprev : getPrev prevs nid' ≠ some Status.offline := fun hp => b1 ⟨hp, hh⟩
        exact h2 hprev
  · unfold uptimeStep
    have hg : getPrev (setPrev prevs nid' h) nid = getPrev prevs nid :=
      getPrev_setPrev_other prevs nid nid' h hn
    by_cases b1 : getPrev prevs nid' = some Status.offline ∧ h ≠ Status.offline
    · rw [if_pos b1]
      refine ⟨?_, fun hx => ?_⟩
      · rw [openCountFor_close_other tbl nid nid' now hn]
        exact h1
      · rw [openCountFor_close_other tbl nid nid' now hn]
        exact h2 (hg ▸ hx)
    · rw [if_neg b1]
      by_cases b2 : h = Status.offline ∧ getPrev prevs nid' ≠ some Status.offline
          ∧ getPrev prevs nid' ≠ none
      · rw [if_pos b2]
        refine ⟨?_, fun hx => ?_⟩
        · rw [openCountFor_insert_other tbl nid nid' now hn]
          exact h1
        · rw [openCountFor_insert_other tbl nid nid' now hn]
          exact h2 (hg ▸ hx)
      · rw [if_neg b2]
        exact ⟨h1, fun hx => h2 (hg ▸ hx)⟩

/-- The invariant is preserved by every sequence of refresh evaluations. -/
theorem uptimeRun_inv (steps : List (String × ℤ × Status)) :
    ∀ (prevs : PrevHealth) (tbl : List Incident) (nid : String),
      UptimeInv prevs tbl nid →
      UptimeInv (uptimeRun steps prevs tbl).1 (uptimeRun steps prevs tbl).2 nid := by
  induction steps with
  | nil => exact fun prevs tbl nid hI => hI
  | cons st rest ih =>
      intro prevs tbl nid hI
      obtain ⟨nid', now, h⟩ := st
      simp only [uptimeRun]
      exact ih _ _ nid (uptimeInv_step prevs tbl nid nid' now h hI)

/-- C1: starting from a table with no open incident for a network, every
sequence of refresh evaluations (with any interleaving of networks and any
initial markers) leaves at most one open incident for it; the table grows
only on a transition to offline from a non-offline non-null marker; and the
transition out of offline closes every open incident of the network. -/
theorem c1_at_most_one_open_incident :
    (∀ (steps : List (String × ℤ × Status)) (prevs : PrevHealth)
        (tbl : List Incident) (nid : String),
      openCountFor tbl nid = 0 →
        openCountFor (uptimeRun steps prevs tbl).2 nid ≤ 1)
    ∧ (∀ (tbl : List Incident) (nid : String) (now : ℤ) (prev : Option Status)
        (h : Status),
      (uptimeStep tbl nid now prev h).length ≠ tbl.length →
        h = Status.offline ∧ prev ≠ some Status.offline ∧ prev ≠ none)
    ∧ (∀ (tbl : List Incident) (nid : String) (now : ℤ) (prev : Option Status)
        (h : Status), prev = some Status.offline → h ≠ Status.offline →
      openCountFor (uptimeStep tbl nid now prev h) nid = 0) := by
  refine ⟨fun steps prevs tbl nid h0 => ?_,
    fun tbl nid now prev h hlen => ?_, fun tbl nid now prev h hp hh => ?_⟩
  · have hI : UptimeInv prevs tbl nid := ⟨by omega, fun _ => h0⟩
    exact (uptimeRun_inv steps prevs tbl nid hI).1
  · unfold uptimeStep at hlen
    by_cases b1 : prev = some Status.offline ∧ h ≠ Status.offline
    · rw [if_pos b1] at hlen
      exact absurd (by simp [closeOpenIncidentsFor]) hlen
    · rw [if_neg b1] at hlen
      by_cases b2 : h = Status.offline ∧ prev ≠ some Status.offline ∧ prev ≠ none
      · exact b2
      · rw [if_neg b2] at hlen
        exact absurd rfl hlen
  · unfold uptimeStep
    rw [if_pos ⟨hp, hh⟩]
    exact openCountFor_close_self tbl nid now

/-- Witness for c1_at_most_one_open_incident: a concrete run through
healthy, offline, healthy, offline for one network starting from an empty
table. -/
theorem c1_at_most_one_open_incident_witness :
    openCountFor (uptimeRun
      [("net1", 1, Status.healthy), ("net1", 2, Status.offline),
        ("net1", 3, Status.healthy), ("net1", 4, Status.offline)] [] []).2 "net1" ≤ 1 :=
  c1_at_most_one_open_incident.1
    [("net1", 1, Status.healthy), ("net1", 2, Status.offline),
      ("net1", 3, Status.healthy), ("net1", 4, Status.offline)] [] [] "net1" rfl

/-- C5: appending a sample to a series of exactly 168 entries evicts
exactly the oldest entry and preserves the order of the rest, leaving 168
entries; and a series of at most 168 entries never exceeds 168 after an
append. -/
theorem c5_bounded_time_series {α : Type} (l : List α) (x : α) :
    (l.length = 168 →
      appendTrim l x = l.drop 1 ++ [x] ∧ (appendTrim l x).length = 168)
    ∧ (l.length ≤ 168 → (appendTrim l x).length ≤ 168) := by
  constructor
  · intro h168
    have hlen : (l ++ [x]).length = 169 := by simp [h168]
    have hgt : 168 < (l ++ [x]).length := by omega
    constructor
    · unfold appendTrim trim168
      rw [if_pos hgt, hlen]
      have h1 : (169 : ℕ) - 168 = 1 := rfl
      rw [h1]
      exact List.drop_append_of_le_length (by omega)
    · unfold appendTrim trim168
      rw [if_pos hgt, List.length_drop]
      omega
  · intro hle
    unfold appendTrim trim168
    by_cases hc : 168 < (l ++ [x]).length
    · rw [if_pos hc, List.length_drop]
      omega
    · rw [if_neg hc]
      omega

/-- Witness for c5_bounded_time_series on a concrete 168-entry series. -/
theorem c5_bounded_time_series_witness :
    appendTrim (List.range 168) 500 = (List.range 168).drop 1 ++ [500]
      ∧ (appendTrim (List.range 168) 500).length = 168 :=
  (c5_bounded_time_series (List.range 168) 500).1 (by simp)

/-- C4: invoking update_cache while the refresh lock is held is a complete
no-op — the state (per-network caches, incident table, alert map) is
unchanged and the effect trace is empty: no external-API fetch, no metric
or disk write, no alert; by contrast, an unlocked invocation with one
active network does fetch it. -/
theorem c4_lock_skip :
    (∀ (fetchInput : String → Option CycleInput) (names : String → String)
        (now : ℤ) (nets : List String) (st : DashState),
      update_cache fetchInput names now nets true st = (st, emptyTrace))
    ∧ (∀ (fetchInput : String → Option CycleInput) (names : String → String)
        (now : ℤ) (nid : String) (st : DashState),
      (update_cache fetchInput names now [nid] false st).2.fetched = [nid]) := by
  constructor
  · intro fi names now nets st
    rfl
  · intro fi names now nid st
    simp only [update_cache]
    cases hf : fi nid <;>
      simp [hf, emptyTrace]

/-- C3 counterexample: one open incident for a network with no cached
health entry at all.  The cached health defaults to the empty string, which
is not 'offline', so the spec's rule (close whenever the health is not
offline) demands a non-null end_time — but the code requires a truthy
health and leaves the incident open and unchanged. -/
theorem c3_missing_entry_left_open :
    close_orphaned_incidents [] 100 [⟨"n1", 0, none, none⟩]
        = [⟨"n1", 0, none, none⟩]
      ∧ (getHealthStr [] "n1").getD "" ≠ "offline"
      ∧ (close_orphaned_incidents [] 100 [⟨"n1", 0, none, none⟩]).head?.map
          (fun inc => inc.end_time) = some none := by
  refine ⟨rfl, by decide, rfl⟩

/-- C3 amended: an open incident whose network's cached health is a
non-empty string other than offline (in particular healthy) gets
end_time = now and duration_seconds = max 0 (now - start_time); an open
incident whose cached health is offline, or whose network has no (or an
empty) cached health entry, is left open and unchanged; closed rows are
untouched and no row is ever inserted (the table length is preserved). -/
theorem c3_orphan_reconciliation (healths : List (String × String)) (now : ℤ)
    (inc : Incident) :
    (inc.end_time = none →
      ((getHealthStr healths inc.network_id).getD "" ≠ ""
          ∧ (getHealthStr healths inc.network_id).getD "" ≠ "offline" →
        close_orphan_row healths now inc
          = { inc with
                end_time := some now
                duration_seconds := some (max 0 (now - inc.start_time)) })
      ∧ ((getHealthStr healths inc.network_id).getD "" = ""
          ∨ (getHealthStr healths inc.network_id).getD "" = "offline" →
        close_orphan_row healths now inc = inc))
    ∧ (inc.end_time ≠ none → close_orphan_row healths now inc = inc)
    ∧ (∀ tbl : List Incident,
        (close_orphaned_incidents healths now tbl).length = tbl.length) := by
  refine ⟨fun hopen => ⟨fun hh => ?_, fun hh => ?_⟩, fun hclosed => ?_, fun tbl => ?_⟩
  · unfold close_orphan_row
    rw [if_pos hopen, if_pos hh]
  · unfold close_orphan_row
    rw [if_pos hopen, if_neg]
    intro hx
    rcases hh with h1 | h2
    · exact hx.1 h1
    · exact hx.2 h2
  · unfold close_orphan_row
    rw [if_neg hclosed]
  · simp [close_orphaned_incidents]

/-- Witness for c3_orphan_reconciliation: an open incident whose network is
cached as healthy gets closed with end_time 100 and the computed
duration. -/
theorem c3_orphan_reconciliation_witness :
    close_orphan_row [("n1", "healthy")] 100 ⟨"n1", 0, none, none⟩
      = { (⟨"n1", 0, none, none⟩ : Incident) with
            end_time := some 100
            duration_seconds :=
              some (max 0 (100 - (⟨"n1", 0, none, none⟩ : Incident).start_time)) } :=
  ((c3_orphan_reconciliation [("n1", "healthy")] 100 ⟨"n1", 0, none, none⟩).1 rfl).1
    ⟨by decide, by decide⟩
